import Mathlib

/-!
Shallow embedding of `src/twitter_api.py` (class `TwitterMySQLAPI`) from the
millerliam/twitter-api repository, together with proofs of the specification
claims about it.

Modelling conventions:
* The MySQL store is modelled as an explicit `DBState` (the rows of the
  `TWEET` and `FOLLOWS` tables plus the `AUTO_INCREMENT` counter of `TWEET`).
* Store-assigned timestamps (`tweet_ts`, a `DATETIME DEFAULT now` column that
  the queries only ever compare with `ORDER BY`) are modelled as `Nat`,
  ordered as the store orders them.
* `ORDER BY RAND()` is modelled by passing the randomly ordered row list as
  an explicit parameter constrained to be a permutation of the table.
* Each Python method opens a fresh connection (`self._connect()`) and closes
  it in a `finally:` block; this resource behaviour is modelled by a
  `ConnLedger` threaded through the `*_conn` variants of the operations.
* Python exceptions escaping a method (`ValueError` from tuple unpacking or
  from `int(...)`) are modelled with `Except ParseError`.
* Python strings that the code computes on (the lines of the CSV file) are
  modelled as `List Char`, with `str.strip` and `str.split(",", 1)` defined
  structurally on the character list.
-/

/-- Data container representing a tweet, from the `Tweet` dataclass in
`twitter_api.py`.  The `tweet_ts` field is the store-assigned creation
timestamp, modelled as a `Nat` ordered the way the store orders `DATETIME`
values. -/
structure Tweet where
  tweet_id : Int
  user_id : Int
  tweet_ts : Nat
  tweet_text : String
deriving DecidableEq, Repr

/-- One row of the `FOLLOWS` table: follower receives followee's tweets. -/
structure Follow where
  follower_id : Int
  followee_id : Int
deriving DecidableEq, Repr

/-- Modelled from the spec: the store schema (section 6 of the spec) is not
part of the four Python files under `src/`.  `TWEET` has
`tweet_id PK autoincrement`, so the store keeps a monotone next-id counter;
`FOLLOWS` has `UNIQUE(follower_id, followee_id)`, which is what makes
`INSERT IGNORE` skip exactly the duplicate ordered pairs.  `DBState` is the
committed state of both tables plus that counter. -/
structure DBState where
  tweets : List Tweet
  follows : List Follow
  next_tweet_id : Int
deriving DecidableEq, Repr

/-- Connection accounting for the per-method `conn = self._connect() /
try ... finally conn.close()` pattern: `opened` counts connections ever
opened, `live` counts connections currently open. -/
structure ConnLedger where
  opened : Nat
  live : Nat
deriving DecidableEq, Repr

/-- Opening a connection (`self._connect()`). -/
def ConnLedger.acquire (c : ConnLedger) : ConnLedger :=
  ⟨c.opened + 1, c.live + 1⟩

/-- Closing a connection (`conn.close()` in the `finally:` block). -/
def ConnLedger.release (c : ConnLedger) : ConnLedger :=
  ⟨c.opened, c.live - 1⟩

/-- Error escaping `load_follows_csv` when a CSV line is malformed: in the
Python source both tuple unpacking of `line.split(",", 1)` and `int(...)`
raise `ValueError` (the spec calls this ParseError). -/
structure ParseError where
  msg : String
deriving DecidableEq, Repr

/-- Digit run of a Python integer literal: digits with single underscores
allowed between digits, as accepted by `int(...)` on a string.  `acc` is the
value of the digits already consumed. -/
def pyDigitsAux : Nat → List Char → Option Nat
  | acc, [] => some acc
  | acc, c :: cs =>
    if c.isDigit then pyDigitsAux (acc * 10 + (c.toNat - 48)) cs
    else if c = '_' then
      match cs with
      | d :: cs2 =>
        if d.isDigit then pyDigitsAux (acc * 10 + (d.toNat - 48)) cs2 else none
      | [] => none
    else none

/-- Characters Python's `str.strip()` removes: the ASCII whitespace
characters (space, tab, newline, carriage return, vertical tab, form
feed). -/
def pyIsSpace (c : Char) : Bool :=
  c = ' ' || c = '\t' || c = '\n' || c = '\r' || c = '\x0b' || c = '\x0c'

/-- Python's `line.strip()`: drop leading and trailing whitespace. -/
def pyStrip (l : List Char) : List Char :=
  ((l.dropWhile pyIsSpace).reverse.dropWhile pyIsSpace).reverse

/-- Python's `int(s)` on a string: surrounding whitespace is stripped, an
optional sign is allowed, then a nonempty digit run (underscores permitted
between digits).  Returns `none` where Python raises `ValueError`. -/
def pyInt (s : List Char) : Option Int :=
  match pyStrip s with
  | '+' :: rest =>
    match rest with
    | d :: _ => if d.isDigit then (pyDigitsAux 0 rest).map Int.ofNat else none
    | [] => none
  | '-' :: rest =>
    match rest with
    | d :: _ => if d.isDigit then (pyDigitsAux 0 rest).map (fun n => -(n : Int)) else none
    | [] => none
  | d :: cs =>
    if d.isDigit then (pyDigitsAux 0 (d :: cs)).map Int.ofNat else none
  | [] => none

/-- Python's `line.split(",", 1)` restricted to what the caller needs: split
at the first comma, `none` when there is no comma (in which case the Python
tuple unpacking `a, b = ...` raises `ValueError`). -/
def splitFirstComma : List Char → Option (List Char × List Char)
  | [] => none
  | c :: cs =>
    if c = ',' then some ([], cs)
    else (splitFirstComma cs).map (fun p => (c :: p.1, p.2))

/-- Parsing of one (already stripped, nonempty) CSV line in
`load_follows_csv`: `follower_id_str, followee_id_str = line.split(",", 1)`
followed by `int(follower_id_str)` and `int(followee_id_str)`. -/
def parseLine (line : List Char) : Except ParseError (Int × Int) :=
  match splitFirstComma line with
  | none => .error ⟨"not enough values to unpack"⟩
  | some (a, b) =>
    match pyInt a with
    | none => .error ⟨"invalid literal for int"⟩
    | some x =>
      match pyInt b with
      | none => .error ⟨"invalid literal for int"⟩
      | some y => .ok (x, y)

namespace TwitterMySQLAPI

/-- Method surface of the Python class `TwitterMySQLAPI` (the `def`s it
declares), used to state claims about which operations the API exposes. -/
def methods : List String :=
  ["__init__", "_connect", "post_tweet", "get_home_timeline",
   "get_random_follower_id", "load_follows_csv"]

/-- Connection parameters stored by `__init__` in `self.conn_args`. -/
structure ConnArgs where
  host : String
  user : String
  password : String
  database : String
  port : Int
deriving DecidableEq, Repr

/-- Constructor `__init__`: only records the connection arguments; it opens
no connection (connections are opened per call by `_connect`). -/
def mkApi (host user password database : String) (port : Int) : ConnArgs :=
  ⟨host, user, password, database, port⟩

/-- Body of `post_tweet`:
`INSERT INTO TWEET (user_id, tweet_text) VALUES (%s, %s)` followed by
`conn.commit()` and `return cur.lastrowid`.  The store assigns `tweet_id`
from the `AUTO_INCREMENT` counter and `tweet_ts` from its clock (`ts` is
that store-chosen timestamp); the returned state is the committed state. -/
def post_tweet (st : DBState) (user_id : Int) (tweet_text : String) (ts : Nat) :
    Int × DBState :=
  let tid := st.next_tweet_id
  (tid,
    { st with
      tweets := st.tweets ++ [⟨tid, user_id, ts, tweet_text⟩]
      next_tweet_id := tid + 1 })

/-- Ordering used by `ORDER BY t.tweet_ts DESC`: `a` precedes `b` when `a`'s
timestamp is at least `b`'s (newest first, hence non-increasing). -/
def tsDesc (a b : Tweet) : Prop :=
  b.tweet_ts ≤ a.tweet_ts

instance : DecidableRel tsDesc := fun a b => Nat.decLe b.tweet_ts a.tweet_ts

instance : IsTotal Tweet tsDesc :=
  ⟨fun a b => (Nat.le_total a.tweet_ts b.tweet_ts).symm⟩

instance : IsTrans Tweet tsDesc :=
  ⟨fun _ _ _ hab hbc => Nat.le_trans hbc hab⟩

/-- Body of `get_home_timeline`: the SQL query
`SELECT ... FROM FOLLOWS f JOIN TWEET t ON t.user_id = f.followee_id
WHERE f.follower_id = %s ORDER BY t.tweet_ts DESC LIMIT 10`, then one
`Tweet` per returned row.  The join is the rows of `FOLLOWS` matching the
user, each paired with every `TWEET` row by that followee; `ORDER BY` then
`LIMIT 10` sorts by timestamp descending and keeps at most 10 rows. -/
def get_home_timeline (st : DBState) (user_id : Int) : List Tweet :=
  let joined :=
    (st.follows.filter (fun f => f.follower_id == user_id)).flatMap
      (fun f => st.tweets.filter (fun t => t.user_id == f.followee_id))
  (joined.insertionSort tsDesc).take 10

/-- Body of `get_random_follower_id`:
`SELECT follower_id FROM FOLLOWS ORDER BY RAND() LIMIT 1`, then
`int(row[0]) if row else None`.  `shuffled` is the randomly ordered list of
`FOLLOWS` rows produced by `ORDER BY RAND()` (a permutation of the table);
`fetchone` takes its head. -/
def get_random_follower_id (shuffled : List Follow) : Option Int :=
  (shuffled.head?).map (fun row => row.follower_id)

/-- One `INSERT IGNORE INTO FOLLOWS (follower_id, followee_id)` statement:
under the `UNIQUE(follower_id, followee_id)` constraint a duplicate ordered
pair is skipped with `cur.rowcount = 0`, otherwise the row is inserted with
`cur.rowcount = 1`. -/
def insertIgnoreFollow (follows : List Follow) (p : Follow) : List Follow × Nat :=
  if p ∈ follows then (follows, 0) else (follows ++ [p], 1)

/-- Loop body of `load_follows_csv` over the remaining lines of the file:
strip the line, skip it when blank, otherwise parse it (a malformed line
raises, aborting the loop) and run `INSERT IGNORE`, accumulating
`inserted += cur.rowcount`.  Works on the uncommitted table state of the
open transaction. -/
def loadFollowsLoop (follows : List Follow) (inserted : Nat) :
    List (List Char) → Except ParseError (List Follow × Nat)
  | [] => .ok (follows, inserted)
  | line :: rest =>
    let l := pyStrip line
    if l.isEmpty then loadFollowsLoop follows inserted rest
    else
      match parseLine l with
      | .error e => .error e
      | .ok (x, y) =>
        let r := insertIgnoreFollow follows ⟨x, y⟩
        loadFollowsLoop r.1 (inserted + r.2) rest

/-- Transaction result of `load_follows_csv` on a file given as its list of
lines: `next(f, None)` skips the header line when `has_header`, the loop
processes the remaining lines, and `conn.commit()` publishes the new table
only when no line raised.  On success returns the committed state and the
count of rows actually inserted. -/
def load_follows_csv (st : DBState) (lines : List (List Char)) (has_header : Bool) :
    Except ParseError (DBState × Nat) :=
  match loadFollowsLoop st.follows 0
      (if has_header then lines.drop 1 else lines) with
  | .error e => .error e
  | .ok (f, n) => .ok ({ st with follows := f }, n)

/-- Full `post_tweet` call including connection handling: `self._connect()`,
the insert-and-commit body, then `conn.close()` in `finally:`. -/
def post_tweet_conn (led : ConnLedger) (st : DBState) (user_id : Int)
    (tweet_text : String) (ts : Nat) : Int × DBState × ConnLedger :=
  let led1 := led.acquire
  let r := post_tweet st user_id tweet_text ts
  (r.1, r.2, led1.release)

/-- Full `get_home_timeline` call including connection handling. -/
def get_home_timeline_conn (led : ConnLedger) (st : DBState) (user_id : Int) :
    List Tweet × ConnLedger :=
  let led1 := led.acquire
  (get_home_timeline st user_id, led1.release)

/-- Full `get_random_follower_id` call including connection handling. -/
def get_random_follower_id_conn (led : ConnLedger) (shuffled : List Follow) :
    Option Int × ConnLedger :=
  let led1 := led.acquire
  (get_random_follower_id shuffled, led1.release)

/-- Full `load_follows_csv` call including connection handling and the
transaction boundary: when a line raises, the `finally: conn.close()` runs
with the transaction uncommitted, so the store rolls the batch back and the
visible table state stays the pre-call `st` (the spec, section 4.3: a
failure partway through must leave the store in its pre-call state).  The
second component is the visible database state after the call. -/
def load_follows_csv_conn (led : ConnLedger) (st : DBState)
    (lines : List (List Char)) (has_header : Bool) :
    Except ParseError Nat × DBState × ConnLedger :=
  let led1 := led.acquire
  match load_follows_csv st lines has_header with
  | .ok (st2, n) => (.ok n, st2, led1.release)
  | .error e => (.error e, st, led1.release)

end TwitterMySQLAPI

open TwitterMySQLAPI

section Theorems

/-- Helper: `insertIgnoreFollow` preserves existing rows, makes the inserted
pair present, and grows the table length by exactly its row count. -/
theorem insertIgnoreFollow_facts (f : List Follow) (p : Follow) :
    (∀ q ∈ f, q ∈ (insertIgnoreFollow f p).1) ∧
    p ∈ (insertIgnoreFollow f p).1 ∧
    (insertIgnoreFollow f p).1.length = f.length + (insertIgnoreFollow f p).2 := by
  unfold insertIgnoreFollow
  split
  · exact ⟨fun q hq => hq, by assumption, rfl⟩
  · refine ⟨fun q hq => List.mem_append_left _ hq,
      List.mem_append_right _ (List.mem_singleton_self p), ?_⟩
    simp

/-- Helper: inserting a pair that is already present is a no-op with row
count 0. -/
theorem insertIgnoreFollow_mem {f : List Follow} {p : Follow} (h : p ∈ f) :
    insertIgnoreFollow f p = (f, 0) :=
  if_pos h

/-- C1: for every user `U`, `get_home_timeline U` has length at most 10, is
ordered non-increasing by tweet timestamp, and contains only tweets whose
author is a followee of `U` (a `followee_id` paired with `follower_id = U`
in `FOLLOWS`). -/
theorem get_home_timeline_spec (st : DBState) (uid : Int) :
    (get_home_timeline st uid).length ≤ 10 ∧
    (get_home_timeline st uid).Sorted tsDesc ∧
    ∀ t ∈ get_home_timeline st uid,
      ∃ f ∈ st.follows, f.follower_id = uid ∧ f.followee_id = t.user_id ∧
        t ∈ st.tweets := by
  refine ⟨?_, ?_, ?_⟩
  · exact List.length_take_le 10 _
  · exact List.Pairwise.take (List.sorted_insertionSort tsDesc _)
  · intro t ht
    have h1 : t ∈ ((st.follows.filter (fun f => f.follower_id == uid)).flatMap
        (fun f => st.tweets.filter (fun t => t.user_id == f.followee_id))) := by
      have := List.mem_of_mem_take ht
      simpa [get_home_timeline] using this
    obtain ⟨f, hf, htf⟩ := List.mem_flatMap.mp h1
    obtain ⟨hfin, hfeq⟩ := List.mem_filter.mp hf
    obtain ⟨htin, hteq⟩ := List.mem_filter.mp htf
    have h2 : t.user_id = f.followee_id := by simpa using hteq
    exact ⟨f, hfin, by simpa using hfeq, h2.symm, htin⟩

/-- C8: for every user `U` that follows no one, `get_home_timeline U`
returns the empty sequence (the operation is total, so no error is
signalled). -/
theorem get_home_timeline_no_followees (st : DBState) (uid : Int)
    (h : ∀ f ∈ st.follows, f.follower_id ≠ uid) :
    get_home_timeline st uid = [] := by
  have hf : st.follows.filter (fun f => f.follower_id == uid) = [] := by
    rw [List.filter_eq_nil_iff]
    intro f hfmem
    simpa using h f hfmem
  simp [get_home_timeline, hf]

/-- Witness for C8 at a concrete state: user 1 follows no one even though
`FOLLOWS` is non-empty and tweets exist. -/
theorem get_home_timeline_no_followees_witness :
    get_home_timeline ⟨[⟨1, 5, 3, "t"⟩], [⟨2, 5⟩], 2⟩ 1 = [] :=
  get_home_timeline_no_followees ⟨[⟨1, 5, 3, "t"⟩], [⟨2, 5⟩], 2⟩ 1 (by decide)

/-- C5: `post_tweet` appends exactly one new row to `TWEET` (and touches no
other table), returns the store-assigned id of that row, and across two
successive calls the returned ids strictly increase.  The returned state is
the committed state (insert and commit form one transaction). -/
theorem post_tweet_spec (st : DBState) (uid : Int) (txt : String) (ts : Nat)
    (uid2 : Int) (txt2 : String) (ts2 : Nat) :
    (post_tweet st uid txt ts).2.tweets
        = st.tweets ++ [⟨st.next_tweet_id, uid, ts, txt⟩] ∧
    (post_tweet st uid txt ts).2.follows = st.follows ∧
    (post_tweet st uid txt ts).1 = st.next_tweet_id ∧
    (post_tweet st uid txt ts).1
        < (post_tweet (post_tweet st uid txt ts).2 uid2 txt2 ts2).1 := by
  refine ⟨rfl, rfl, rfl, ?_⟩
  simp only [post_tweet]
  exact lt_add_one _

/-- C2: whenever `FOLLOWS` is non-empty, `get_random_follower_id` (run on
the `ORDER BY RAND()` ordering `shuffled`, a permutation of the table)
returns `some` id that occurs as a `follower_id` in `FOLLOWS`. -/
theorem get_random_follower_id_mem (st : DBState) (shuffled : List Follow)
    (hperm : shuffled.Perm st.follows) (hne : st.follows ≠ []) :
    ∃ i ∈ st.follows.map (fun f => f.follower_id),
      get_random_follower_id shuffled = some i := by
  cases shuffled with
  | nil => exact absurd (hperm.nil_eq.symm) hne
  | cons a tl =>
    refine ⟨a.follower_id, ?_, rfl⟩
    exact List.mem_map_of_mem _ (hperm.mem_iff.mp (List.mem_cons_self a tl))

/-- Witness for C2: a two-row table read in a shuffled order. -/
theorem get_random_follower_id_mem_witness :
    ∃ i ∈ ([⟨1, 2⟩, ⟨3, 4⟩] : List Follow).map (fun f => f.follower_id),
      get_random_follower_id [⟨3, 4⟩, ⟨1, 2⟩] = some i :=
  get_random_follower_id_mem ⟨[], [⟨1, 2⟩, ⟨3, 4⟩], 1⟩ [⟨3, 4⟩, ⟨1, 2⟩]
    (List.Perm.swap _ _ _) (by decide)

/-- C7: when the `FOLLOWS` table is empty, `get_random_follower_id` returns
`none` (the `row else None` branch; the operation is total, so no error is
raised for this case). -/
theorem get_random_follower_id_empty (st : DBState) (shuffled : List Follow)
    (hperm : shuffled.Perm st.follows) (hempty : st.follows = []) :
    get_random_follower_id shuffled = none := by
  rw [hempty] at hperm
  rw [hperm.eq_nil]
  rfl

/-- Witness for C7 at the empty table. -/
theorem get_random_follower_id_empty_witness :
    get_random_follower_id ([] : List Follow) = none :=
  get_random_follower_id_empty ⟨[], [], 1⟩ [] (List.Perm.refl _) rfl

end Theorems

section ConnectionTheorems

/-- C6 counterexample: the class exposes no `close()` operation, and an
instance does not hold one live connection for its lifetime: after one
`post_tweet` call no connection is live, and two calls on the same instance
have opened two distinct connections, not one. -/
theorem api_single_connection_cex :
    "close" ∉ TwitterMySQLAPI.methods ∧
    (post_tweet_conn ⟨0, 0⟩ ⟨[], [], 1⟩ 7 "hello" 1).2.2.live = 0 ∧
    (post_tweet_conn
        (post_tweet_conn ⟨0, 0⟩ ⟨[], [], 1⟩ 7 "hello" 1).2.2
        (post_tweet_conn ⟨0, 0⟩ ⟨[], [], 1⟩ 7 "hello" 1).2.1
        7 "again" 2).2.2.opened = 2 := by
  refine ⟨by decide, rfl, rfl⟩

/-- C6 amended: an API instance holds no persistent store connection: the
constructor only records connection parameters, every operation opens its
own fresh connection (total opened count grows by one per call) and releases
it before returning (live count is restored), and the class exposes no
`close()` operation. -/
theorem api_per_call_connections :
    "close" ∉ TwitterMySQLAPI.methods ∧
    (∀ h u p d (port : Int), mkApi h u p d port = ⟨h, u, p, d, port⟩) ∧
    (∀ (led : ConnLedger) st uid txt ts,
      (post_tweet_conn led st uid txt ts).2.2 = ⟨led.opened + 1, led.live⟩) ∧
    (∀ (led : ConnLedger) st uid,
      (get_home_timeline_conn led st uid).2 = ⟨led.opened + 1, led.live⟩) ∧
    (∀ (led : ConnLedger) shuffled,
      (get_random_follower_id_conn led shuffled).2
        = ⟨led.opened + 1, led.live⟩) ∧
    (∀ (led : ConnLedger) st lines hdr,
      (load_follows_csv_conn led st lines hdr).2.2
        = ⟨led.opened + 1, led.live⟩) := by
  refine ⟨by decide, fun h u p d port => rfl, fun led st uid txt ts => rfl,
    fun led st uid => rfl, fun led shuffled => rfl, fun led st lines hdr => ?_⟩
  unfold load_follows_csv_conn
  cases load_follows_csv st lines hdr <;> rfl

/-- C9: every public operation acquires exactly one fresh connection at call
start (`opened` grows by one) and releases it on every exit path (`live` is
restored), including the exceptional path of `load_follows_csv`, whose
`finally:` closes the connection even when a line fails to parse. -/
theorem connection_released_every_call :
    (∀ (led : ConnLedger) st uid txt ts,
      (post_tweet_conn led st uid txt ts).2.2.opened = led.opened + 1 ∧
      (post_tweet_conn led st uid txt ts).2.2.live = led.live) ∧
    (∀ (led : ConnLedger) st uid,
      (get_home_timeline_conn led st uid).2.opened = led.opened + 1 ∧
      (get_home_timeline_conn led st uid).2.live = led.live) ∧
    (∀ (led : ConnLedger) shuffled,
      (get_random_follower_id_conn led shuffled).2.opened = led.opened + 1 ∧
      (get_random_follower_id_conn led shuffled).2.live = led.live) ∧
    (∀ (led : ConnLedger) st lines hdr,
      ((load_follows_csv_conn led st lines hdr).2.2.opened = led.opened + 1 ∧
       (load_follows_csv_conn led st lines hdr).2.2.live = led.live) ∧
      (∀ e, (load_follows_csv_conn led st lines hdr).1 = .error e →
        (load_follows_csv_conn led st lines hdr).2.2.live = led.live)) := by
  refine ⟨fun led st uid txt ts => ⟨rfl, rfl⟩, fun led st uid => ⟨rfl, rfl⟩,
    fun led shuffled => ⟨rfl, rfl⟩, fun led st lines hdr => ?_⟩
  unfold load_follows_csv_conn
  cases load_follows_csv st lines hdr with
  | ok v => exact ⟨⟨rfl, rfl⟩, fun e he => by cases he⟩
  | error e => exact ⟨⟨rfl, rfl⟩, fun e2 he2 => rfl⟩

end ConnectionTheorems

section LoadFollowsTheorems

/-- Helper: unfolding of the load loop on a blank line (after `strip`,
`if not line: continue`). -/
theorem loadFollowsLoop_cons_blank {f : List Follow} {i : Nat} {line : List Char}
    {rest : List (List Char)} (hb : (pyStrip line).isEmpty = true) :
    loadFollowsLoop f i (line :: rest) = loadFollowsLoop f i rest := by
  simp [loadFollowsLoop, hb]

/-- Helper: unfolding of the load loop on a malformed non-blank line: the
parse error escapes, aborting the loop. -/
theorem loadFollowsLoop_cons_error {f : List Follow} {i : Nat} {line : List Char}
    {rest : List (List Char)} {e : ParseError} (hb : (pyStrip line).isEmpty = false)
    (hp : parseLine (pyStrip line) = .error e) :
    loadFollowsLoop f i (line :: rest) = .error e := by
  simp [loadFollowsLoop, hb, hp]

/-- Helper: unfolding of the load loop on a well-formed non-blank line: the
pair is inserted (or ignored) and the loop continues. -/
theorem loadFollowsLoop_cons_ok {f : List Follow} {i : Nat} {line : List Char}
    {rest : List (List Char)} {x y : Int} (hb : (pyStrip line).isEmpty = false)
    (hp : parseLine (pyStrip line) = .ok (x, y)) :
    loadFollowsLoop f i (line :: rest)
      = loadFollowsLoop (insertIgnoreFollow f ⟨x, y⟩).1
          (i + (insertIgnoreFollow f ⟨x, y⟩).2) rest := by
  simp [loadFollowsLoop, hb, hp]

/-- Helper: facts about a successful run of the load loop: existing rows are
preserved, the table grows by exactly the number of counted inserts, and
every non-blank line parsed successfully with its pair present in the final
table. -/
theorem loadFollowsLoop_ok_facts (body : List (List Char)) (f : List Follow)
    (i : Nat) (f2 : List Follow) (n : Nat)
    (h : loadFollowsLoop f i body = .ok (f2, n)) :
    (∀ p ∈ f, p ∈ f2) ∧
    f2.length + i = f.length + n ∧
    (∀ l ∈ body, (pyStrip l).isEmpty = false →
      ∃ xy, parseLine (pyStrip l) = .ok xy ∧ (⟨xy.1, xy.2⟩ : Follow) ∈ f2) := by
  induction body generalizing f i with
  | nil =>
    simp only [loadFollowsLoop, Except.ok.injEq, Prod.mk.injEq] at h
    obtain ⟨h1, h2⟩ := h
    subst h1; subst h2
    exact ⟨fun p hp => hp, rfl, fun l hl => absurd hl (List.not_mem_nil l)⟩
  | cons line rest ih =>
    cases hb : (pyStrip line).isEmpty with
    | true =>
      rw [loadFollowsLoop_cons_blank hb] at h
      obtain ⟨hsub, hlen, hall⟩ := ih f i h
      refine ⟨hsub, hlen, ?_⟩
      intro l hl hnb
      rcases List.mem_cons.mp hl with rfl | hl2
      · rw [hb] at hnb; cases hnb
      · exact hall l hl2 hnb
    | false =>
      cases hp : parseLine (pyStrip line) with
      | error e => rw [loadFollowsLoop_cons_error hb hp] at h; cases h
      | ok xy =>
        obtain ⟨x, y⟩ := xy
        rw [loadFollowsLoop_cons_ok hb hp] at h
        obtain ⟨hsub, hlen, hall⟩ := ih _ _ h
        obtain ⟨hkeep, hmemp, hlen2⟩ := insertIgnoreFollow_facts f ⟨x, y⟩
        refine ⟨fun p hp2 => hsub p (hkeep p hp2), by omega, ?_⟩
        intro l hl hnb
        rcases List.mem_cons.mp hl with rfl | hl2
        · exact ⟨(x, y), hp, hsub _ hmemp⟩
        · exact hall l hl2 hnb

/-- Helper: when every non-blank line of `body` parses to a pair already in
the table, the load loop changes nothing and counts nothing. -/
theorem loadFollowsLoop_noop (body : List (List Char)) (f : List Follow) (i : Nat)
    (hall : ∀ l ∈ body, (pyStrip l).isEmpty = false →
      ∃ xy, parseLine (pyStrip l) = .ok xy ∧ (⟨xy.1, xy.2⟩ : Follow) ∈ f) :
    loadFollowsLoop f i body = .ok (f, i) := by
  induction body with
  | nil => rfl
  | cons line rest ih =>
    cases hb : (pyStrip line).isEmpty with
    | true =>
      rw [loadFollowsLoop_cons_blank hb]
      exact ih (fun l hl => hall l (List.mem_cons_of_mem _ hl))
    | false =>
      obtain ⟨xy, hp, hmem⟩ := hall line (List.mem_cons_self _ _) hb
      obtain ⟨x, y⟩ := xy
      rw [loadFollowsLoop_cons_ok hb hp, insertIgnoreFollow_mem hmem]
      simpa using ih (fun l hl => hall l (List.mem_cons_of_mem _ hl))

/-- Helper: a malformed non-blank line anywhere in `body` makes the load
loop abort with a parse error. -/
theorem loadFollowsLoop_error (body : List (List Char)) (f : List Follow) (i : Nat)
    (hbad : ∃ l ∈ body, (pyStrip l).isEmpty = false ∧
      ∃ e, parseLine (pyStrip l) = .error e) :
    ∃ e2, loadFollowsLoop f i body = .error e2 := by
  induction body generalizing f i with
  | nil =>
    obtain ⟨l, hl, _⟩ := hbad
    exact absurd hl (List.not_mem_nil l)
  | cons line rest ih =>
    cases hb : (pyStrip line).isEmpty with
    | true =>
      rw [loadFollowsLoop_cons_blank hb]
      apply ih
      obtain ⟨l, hl, hnb, he⟩ := hbad
      rcases List.mem_cons.mp hl with rfl | hl2
      · rw [hb] at hnb; cases hnb
      · exact ⟨l, hl2, hnb, he⟩
    | false =>
      cases hp : parseLine (pyStrip line) with
      | error e => exact ⟨e, loadFollowsLoop_cons_error hb hp⟩
      | ok xy =>
        obtain ⟨x, y⟩ := xy
        rw [loadFollowsLoop_cons_ok hb hp]
        apply ih
        obtain ⟨l, hl, hnb, he⟩ := hbad
        rcases List.mem_cons.mp hl with rfl | hl2
        · obtain ⟨e, he⟩ := he; rw [hp] at he; cases he
        · exact ⟨l, hl2, hnb, he⟩

/-- Helper: a blank line anywhere in the input is skipped without any effect
on the loop's result. -/
theorem loadFollowsLoop_skip_blank (pre : List (List Char)) (b : List Char)
    (post : List (List Char)) (hb : (pyStrip b).isEmpty = true) :
    ∀ (f : List Follow) (i : Nat),
      loadFollowsLoop f i (pre ++ b :: post) = loadFollowsLoop f i (pre ++ post) := by
  induction pre with
  | nil =>
    intro f i
    exact loadFollowsLoop_cons_blank hb
  | cons line pre2 ih =>
    intro f i
    cases hl : (pyStrip line).isEmpty with
    | true =>
      rw [List.cons_append, List.cons_append, loadFollowsLoop_cons_blank hl,
        loadFollowsLoop_cons_blank hl]
      exact ih f i
    | false =>
      cases hp : parseLine (pyStrip line) with
      | error e =>
        rw [List.cons_append, List.cons_append,
          loadFollowsLoop_cons_error hl hp, loadFollowsLoop_cons_error hl hp]
      | ok xy =>
        obtain ⟨x, y⟩ := xy
        rw [List.cons_append, List.cons_append,
          loadFollowsLoop_cons_ok hl hp, loadFollowsLoop_cons_ok hl hp]
        exact ih _ _

/-- Helper: unfolding of `load_follows_csv` on a successful loop run. -/
theorem load_follows_csv_eq_ok {st : DBState} {lines : List (List Char)}
    {hdr : Bool} {f2 : List Follow} {m : Nat}
    (hb : loadFollowsLoop st.follows 0
      (if hdr then lines.drop 1 else lines) = .ok (f2, m)) :
    load_follows_csv st lines hdr = .ok ({ st with follows := f2 }, m) := by
  unfold load_follows_csv
  rw [hb]

/-- Helper: unfolding of `load_follows_csv` on an aborted loop run. -/
theorem load_follows_csv_eq_error {st : DBState} {lines : List (List Char)}
    {hdr : Bool} {e : ParseError}
    (hb : loadFollowsLoop st.follows 0
      (if hdr then lines.drop 1 else lines) = .error e) :
    load_follows_csv st lines hdr = .error e := by
  unfold load_follows_csv
  rw [hb]

/-- Helper: inversion of a successful `load_follows_csv` call. -/
theorem load_follows_csv_ok_inv {st : DBState} {lines : List (List Char)}
    {hdr : Bool} {st2 : DBState} {n : Nat}
    (h : load_follows_csv st lines hdr = .ok (st2, n)) :
    loadFollowsLoop st.follows 0
      (if hdr then lines.drop 1 else lines) = .ok (st2.follows, n) ∧
    st2 = { st with follows := st2.follows } := by
  unfold load_follows_csv at h
  cases hb : loadFollowsLoop st.follows 0 (if hdr then lines.drop 1 else lines) with
  | error e => rw [hb] at h; cases h
  | ok v =>
    obtain ⟨f2, m⟩ := v
    rw [hb] at h
    simp only [Except.ok.injEq, Prod.mk.injEq] at h
    obtain ⟨h1, h2⟩ := h
    subst h2
    have hf : st2.follows = f2 := by rw [← h1]
    constructor
    · rw [hf]
    · rw [← h1]

/-- C3: `load_follows_csv` is idempotent under the ignore-duplicate policy:
a second load of the same file from the state the first load produced
inserts nothing and returns 0, and in general the returned count is exactly
the number of rows the call actually added to `FOLLOWS` (skipped duplicates
are not counted). -/
theorem load_follows_csv_idempotent (st : DBState) (lines : List (List Char))
    (hdr : Bool) (st2 : DBState) (n : Nat)
    (h : load_follows_csv st lines hdr = .ok (st2, n)) :
    load_follows_csv st2 lines hdr = .ok (st2, 0) ∧
    st2.follows.length = st.follows.length + n := by
  obtain ⟨hloop, hshape⟩ := load_follows_csv_ok_inv h
  obtain ⟨hsub, hlen, hall⟩ := loadFollowsLoop_ok_facts _ _ _ _ _ hloop
  constructor
  · have hnoop := loadFollowsLoop_noop
      (if hdr then lines.drop 1 else lines) st2.follows 0 hall
    exact load_follows_csv_eq_ok hnoop
  · omega

/-- Witness for C3: loading four lines with one duplicate inserts two rows;
reloading the same lines inserts zero and returns 0. -/
theorem load_follows_csv_idempotent_witness :
    load_follows_csv ⟨[], [], 5⟩
        ["follower,followee".data, "1,2".data, "1,3".data, "1,2".data] true
      = .ok (⟨[], [⟨1, 2⟩, ⟨1, 3⟩], 5⟩, 2) ∧
    (load_follows_csv ⟨[], [⟨1, 2⟩, ⟨1, 3⟩], 5⟩
        ["follower,followee".data, "1,2".data, "1,3".data, "1,2".data] true
      = .ok (⟨[], [⟨1, 2⟩, ⟨1, 3⟩], 5⟩, 0) ∧
     (⟨[], [⟨1, 2⟩, ⟨1, 3⟩], 5⟩ : DBState).follows.length
        = (⟨[], [], 5⟩ : DBState).follows.length + 2) :=
  ⟨by rfl,
    load_follows_csv_idempotent ⟨[], [], 5⟩
      ["follower,followee".data, "1,2".data, "1,3".data, "1,2".data] true
      ⟨[], [⟨1, 2⟩, ⟨1, 3⟩], 5⟩ 2 (by rfl)⟩

/-- C4: the whole batch of `load_follows_csv` is one transaction committed
only at the end: a malformed line (no comma to split on, or a field that is
not an integer) makes the call signal a ParseError, and the connection is
closed with the transaction uncommitted, so the visible `FOLLOWS` state
after the call is exactly the pre-call state. -/
theorem load_follows_csv_parse_abort (led : ConnLedger) (st : DBState)
    (lines : List (List Char)) (hdr : Bool) (l : List Char)
    (hmem : l ∈ (if hdr then lines.drop 1 else lines))
    (hnb : (pyStrip l).isEmpty = false)
    (he : ∃ e, parseLine (pyStrip l) = .error e) :
    (∃ e2, load_follows_csv st lines hdr = .error e2) ∧
    (load_follows_csv_conn led st lines hdr).2.1 = st := by
  obtain ⟨e2, he2⟩ := loadFollowsLoop_error
    (if hdr then lines.drop 1 else lines) st.follows 0 ⟨l, hmem, hnb, he⟩
  have hload : load_follows_csv st lines hdr = .error e2 :=
    load_follows_csv_eq_error he2
  refine ⟨⟨e2, hload⟩, ?_⟩
  unfold load_follows_csv_conn
  rw [hload]

/-- Witness for C4: a file whose second line has no comma aborts the load
and leaves the table untouched. -/
theorem load_follows_csv_parse_abort_witness :
    ("oops".data ∈ (["1,2".data, "oops".data] : List (List Char))) ∧
    (pyStrip "oops".data).isEmpty = false ∧
    (∃ e, parseLine (pyStrip "oops".data) = .error e) ∧
    ((∃ e2, load_follows_csv ⟨[], [], 1⟩ ["1,2".data, "oops".data] false
        = .error e2) ∧
     (load_follows_csv_conn ⟨0, 0⟩ ⟨[], [], 1⟩ ["1,2".data, "oops".data]
        false).2.1 = ⟨[], [], 1⟩) :=
  ⟨by simp, by rfl, ⟨⟨"not enough values to unpack"⟩, by rfl⟩,
    load_follows_csv_parse_abort ⟨0, 0⟩ ⟨[], [], 1⟩
      ["1,2".data, "oops".data] false "oops".data
      (by simp) (by rfl) ⟨⟨"not enough values to unpack"⟩, by rfl⟩⟩

/-- C10: blank lines anywhere in the body of the file are skipped without
being counted and without error, and with `has_header = true` a header-only
file and an entirely empty file both load successfully with count 0. -/
theorem load_follows_csv_blank_lines (st : DBState) (hline b : List Char)
    (pre post : List (List Char)) (hb : (pyStrip b).isEmpty = true) :
    load_follows_csv st (hline :: (pre ++ b :: post)) true
      = load_follows_csv st (hline :: (pre ++ post)) true ∧
    load_follows_csv st [hline] true = .ok (st, 0) ∧
    load_follows_csv st ([] : List (List Char)) true = .ok (st, 0) := by
  refine ⟨?_, rfl, rfl⟩
  unfold load_follows_csv
  simp only [List.drop_succ_cons, List.drop_zero, if_true]
  rw [loadFollowsLoop_skip_blank pre b post hb]

/-- Witness for C10: a blank (whitespace-only) line between two data lines
changes nothing, and header-only / empty inputs return 0. -/
theorem load_follows_csv_blank_lines_witness :
    ((pyStrip "  ".data).isEmpty = true) ∧
    (load_follows_csv ⟨[], [], 1⟩
          ["h".data, "1,2".data, "  ".data, "3,4".data] true
        = load_follows_csv ⟨[], [], 1⟩ ["h".data, "1,2".data, "3,4".data] true ∧
     load_follows_csv ⟨[], [], 1⟩ ["h".data] true = .ok (⟨[], [], 1⟩, 0) ∧
     load_follows_csv ⟨[], [], 1⟩ ([] : List (List Char)) true
        = .ok (⟨[], [], 1⟩, 0)) :=
  ⟨by rfl, load_follows_csv_blank_lines ⟨[], [], 1⟩ "h".data "  ".data
    ["1,2".data] ["3,4".data] (by rfl)⟩

end LoadFollowsTheorems

section ExtraWitnesses

/-- Witness for C1 at a concrete state: user 1 follows users 2 and 3, who
have three tweets between them. -/
theorem get_home_timeline_spec_witness :
    (get_home_timeline
        ⟨[⟨1, 2, 5, "a"⟩, ⟨2, 3, 9, "b"⟩, ⟨3, 4, 7, "c"⟩], [⟨1, 2⟩, ⟨1, 3⟩], 4⟩
        1).length ≤ 10 ∧
    (get_home_timeline
        ⟨[⟨1, 2, 5, "a"⟩, ⟨2, 3, 9, "b"⟩, ⟨3, 4, 7, "c"⟩], [⟨1, 2⟩, ⟨1, 3⟩], 4⟩
        1).Sorted tsDesc ∧
    ∀ t ∈ get_home_timeline
        ⟨[⟨1, 2, 5, "a"⟩, ⟨2, 3, 9, "b"⟩, ⟨3, 4, 7, "c"⟩], [⟨1, 2⟩, ⟨1, 3⟩], 4⟩
        1,
      ∃ f ∈ ([⟨1, 2⟩, ⟨1, 3⟩] : List Follow), f.follower_id = 1 ∧
        f.followee_id = t.user_id ∧
        t ∈ ([⟨1, 2, 5, "a"⟩, ⟨2, 3, 9, "b"⟩, ⟨3, 4, 7, "c"⟩] : List Tweet) :=
  get_home_timeline_spec
    ⟨[⟨1, 2, 5, "a"⟩, ⟨2, 3, 9, "b"⟩, ⟨3, 4, 7, "c"⟩], [⟨1, 2⟩, ⟨1, 3⟩], 4⟩ 1

/-- Witness for the amended C6 at concrete inputs: no `close` method, and a
concrete `post_tweet` call opens one fresh connection and retains none. -/
theorem api_per_call_connections_witness :
    "close" ∉ TwitterMySQLAPI.methods ∧
    (post_tweet_conn ⟨0, 0⟩ ⟨[], [], 1⟩ 7 "x" 1).2.2
      = ⟨(0 : Nat) + 1, (0 : Nat)⟩ :=
  ⟨api_per_call_connections.1,
    api_per_call_connections.2.2.1 ⟨0, 0⟩ ⟨[], [], 1⟩ 7 "x" 1⟩

/-- Witness for C9 at concrete inputs, including an exceptional
`load_follows_csv` call on a malformed file: the connection is still
released. -/
theorem connection_released_every_call_witness :
    (post_tweet_conn ⟨0, 0⟩ ⟨[], [], 1⟩ 7 "x" 1).2.2.opened = 0 + 1 ∧
    (load_follows_csv_conn ⟨3, 2⟩ ⟨[], [], 1⟩ ["oops".data] false).2.2.live
      = 2 :=
  ⟨(connection_released_every_call.1 ⟨0, 0⟩ ⟨[], [], 1⟩ 7 "x" 1).1,
    (connection_released_every_call.2.2.2 ⟨3, 2⟩ ⟨[], [], 1⟩
        ["oops".data] false).2 ⟨"not enough values to unpack"⟩ (by rfl)⟩

end ExtraWitnesses
